import Mathlib

/- Verification of the chat application in labs/day-5/4-streamit.py: a
   single-file Streamlit script wiring a LangChain react agent (two tools,
   an iteration cap of 5) to a chat transcript kept in
   st.session_state.messages.  The script is embedded shallowly: the
   external calls (agent_executor.invoke, the model, the tools) are
   supplied as oracle values, and the script body is translated
   line by line. -/

/-- Python truthiness of an optional string, as tested by
`if not openai_api_key` and `if prompt := st.chat_input(...)`:
None and the empty string are falsy, every other string is truthy. -/
def pyTruthy : Option String → Bool
  | none => false
  | some s => !s.isEmpty

/-- Role-tagged chat message, an element of st.session_state.messages:
a Python dict {"role": ..., "content": ...}. -/
structure Message where
  role : String
  content : String
deriving Repr, DecidableEq, Inhabited

/-- A tool entry as produced by load_tools: a named capability with a
description, exposed to the reasoning loop by name. -/
structure Tool where
  name : String
  description : String
deriving Repr, DecidableEq

/-- Modelled from the spec: load_tools lives in the external LangChain
library and is missing from the source tree; spec section 4.2 fixes the
registry as two entries, a web-search lookup and a math-evaluation
helper, selected here by the names the script passes. -/
def load_tools (names : List String) : List Tool :=
  names.map (fun n =>
    if n = "ddg-search" then
      ⟨"ddg-search", "web-search lookup returning a text summary of top web results"⟩
    else if n = "llm-math" then
      ⟨"llm-math", "math-evaluation helper returning the evaluated result as text"⟩
    else ⟨n, "unknown tool"⟩)

/-- The react prompt template string defined in setup_agent. -/
def reactTemplate : String :=
"
    Answer the following questions as best you can. You have access to the following tools:

    {tools}

    Use the following format:

    Question: the input question you must answer
    Thought: you should always think about what to do
    Action: the action to take, should be one of [{tool_names}]
    Action Input: the input to the action
    Observation: the result of the action
    ... (this Thought/Action/Action Input/Observation can repeat N times)
    Thought: I now know the final answer
    Final Answer: the final answer to the original input question

    Begin!

    Question: {input}
    Thought:{agent_scratchpad}
    "

/-- The AgentExecutor configuration assembled in setup_agent: the tool
list, the prompt, and the keyword arguments passed to the constructor. -/
structure AgentExecutor where
  tools : List Tool
  promptTemplate : String
  verbose : Bool
  handleParsingErrors : Bool
  maxIterations : Nat
deriving Repr, DecidableEq

/-- The body of setup_agent: load the two tools, build the prompt, and
construct the executor with verbose=True, handle_parsing_errors=True and
max_iterations=5. -/
def setup_agent : AgentExecutor :=
  { tools := load_tools ["ddg-search", "llm-math"]
    promptTemplate := reactTemplate
    verbose := true
    handleParsingErrors := true
    maxIterations := 5 }

/-- Outcome of one call to agent_executor.invoke as seen at the UI
boundary: either a returned response dictionary (string keys to string
values, modelled as an association list) or a raised exception carrying
its display text. -/
inductive InvokeResult where
  | ok (response : List (String × String))
  | raises (e : String)
deriving Repr, DecidableEq

/-- Python dict .get with a default: response.get(key, dflt). -/
def dictGet (response : List (String × String)) (key dflt : String) : String :=
  (response.lookup key).getD dflt

/-- Observable steps taken by the script while handling one submission:
appends to st.session_state.messages, calls to st.markdown / st.error,
and the call to agent_executor.invoke together with the transcript state
at the moment of that call. -/
inductive Event where
  | appendMsg (m : Message)
  | render (role : String) (text : String)
  | invokeCall (input : String) (messagesAtCall : List Message)
  | renderError (text : String)
deriving Repr, DecidableEq

/-- The chat-input handler of the script (the `if prompt := st.chat_input`
block), translated line by line.  Given the transcript before the rerun,
the chat-input widget value and the oracle outcome of the invoke call,
it returns the event trace and the final st.session_state.messages. -/
def chatHandler (messages : List Message) (chatInput : Option String)
    (result : InvokeResult) : List Event × List Message :=
  if pyTruthy chatInput then
    let prompt := chatInput.getD ""
    let ms1 := messages ++ [⟨"user", prompt⟩]
    match result with
    | .ok response =>
      let final_answer := dictGet response "output" "Sorry, I encountered an error."
      ([.appendMsg ⟨"user", prompt⟩, .render "user" prompt,
        .invokeCall prompt ms1, .render "assistant" final_answer,
        .appendMsg ⟨"assistant", final_answer⟩],
       ms1 ++ [⟨"assistant", final_answer⟩])
    | .raises e =>
      let error_message := "An error occurred: " ++ e ++ ". Please try again."
      ([.appendMsg ⟨"user", prompt⟩, .render "user" prompt,
        .invokeCall prompt ms1, .renderError error_message,
        .appendMsg ⟨"assistant", error_message⟩],
       ms1 ++ [⟨"assistant", error_message⟩])
  else ([], messages)

/-- The assistant-role content appended for a given invoke outcome:
response.get("output", ...) on success, the formatted error string when
the invoke raised. -/
def assistantReply (result : InvokeResult) : String :=
  match result with
  | .ok response => dictGet response "output" "Sorry, I encountered an error."
  | .raises e => "An error occurred: " ++ e ++ ". Please try again."

/-- One interaction of a running session after the agent is ready: the
script rerun threads the cached agent through unchanged and updates the
transcript with the chat handler. -/
def sessionStep (st : AgentExecutor × List Message)
    (sub : Option String × InvokeResult) : AgentExecutor × List Message :=
  (st.1, (chatHandler st.2 sub.1 sub.2).2)

/-- A session: the transcript starts empty (the
`if "messages" not in st.session_state` initializer) and each submission
is handled in order by the chat handler. -/
def runSession (agent : AgentExecutor)
    (subs : List (Option String × InvokeResult)) : AgentExecutor × List Message :=
  subs.foldl sessionStep (agent, [])

/-- UI phases of the script, from the spec state machine: before a
truthy credential the script stops at st.stop(); afterwards it reaches
the chat loop. Processing is transient inside one rerun. -/
inductive UIState where
  | awaitingCredential
  | processing
  | ready
deriving Repr, DecidableEq

/-- Everything one top-to-bottom rerun of the script observably did:
whether setup_agent was entered, whether agent_executor.invoke was
called, the UI phase the rerun ends in, the handler event trace and the
final transcript. -/
structure ScriptResult where
  agentConstructed : Bool
  invokedExecutor : Bool
  uiState : UIState
  events : List Event
  messages : List Message
deriving Repr, DecidableEq

/-- One top-to-bottom rerun of the script body below the widget
declarations: the `if not openai_api_key: st.info(...); st.stop()` gate,
the try/except around setup_agent (initError is the oracle for a raised
construction failure), then the chat handler.  st.stop() aborts the
rerun, so everything below the gate is skipped when the key is falsy. -/
def scriptRun (openai_api_key : Option String) (initError : Option String)
    (prior : List Message) (chatInput : Option String)
    (result : InvokeResult) : ScriptResult :=
  if !pyTruthy openai_api_key then
    ⟨false, false, .awaitingCredential, [], prior⟩
  else
    match initError with
    | some _ => ⟨false, false, .awaitingCredential, [], prior⟩
    | none =>
      let handled := chatHandler prior chatInput result
      ⟨true, pyTruthy chatInput, .ready, handled.1, handled.2⟩

/-- Successive states of st.session_state.messages along an event trace:
the state before the first operation, then the state after each append
performed by the handler. -/
def msgSnapshots (init : List Message) : List Event → List (List Message)
  | [] => [init]
  | .appendMsg m :: es => init :: msgSnapshots (init ++ [m]) es
  | _ :: es => msgSnapshots init es

/-- Modelled from the spec: st.cache_resource memoizes setup_agent
across script reruns; the first call constructs the executor and caches
it, every later call returns the cached instance without constructing.
Returns the instance handed to the rerun, the new cache and whether a
construction happened. -/
def cachedSetupAgent : Option AgentExecutor → AgentExecutor × Option AgentExecutor × Bool
  | some a => (a, some a, false)
  | none => (setup_agent, some setup_agent, true)

/-- The agents handed out and the number of constructions over a
sequence of reruns, starting from a given cache state. -/
def rerunTrace : Option AgentExecutor → Nat → List AgentExecutor × Nat
  | _, 0 => ([], 0)
  | cache, n + 1 =>
    let r := cachedSetupAgent cache
    let t := rerunTrace r.2.1 n
    (r.1 :: t.1, (if r.2.2 then 1 else 0) + t.2)

/-- Modelled from the spec: the next-step suggestion the underlying
model returns inside one round of the external reasoning loop (spec
section 4.1) — a final answer, a tool action, or unparsable output. -/
inductive ModelStep where
  | finalAnswer (text : String)
  | action (toolName : String) (toolInput : String)
  | unparsable (raw : String)

/-- A tool together with its invocation: text argument in, text
observation out (tool-level failures are surfaced as observation
strings per spec section 7). -/
structure ToolImpl where
  descr : Tool
  run : String → String

/-- Possible outcomes of the external reasoning loop per its contract:
a final answer, a best-effort result at the iteration cap, or the two
loop-internal failures. -/
inductive LoopOutcome where
  | answer (text : String)
  | iterationCapReached (bestEffort : String)
  | unknownToolError (toolName : String)
  | parseError (raw : String)

/-- Modelled from the spec: the reasoning-loop executor lives in the
external LangChain library; spec section 4.1 fixes its contract.  Each
recursive call consumes one unit of fuel (the remaining iteration
budget) and counts one model-query/tool-dispatch round; the loop stops
on a final answer, on an unrecovered failure, or when the fuel is
exhausted, returning the outcome and the number of rounds performed. -/
def reasoningLoop (oracle : List String → ModelStep) (tools : List ToolImpl)
    (tolerance : Bool) : Nat → List String → LoopOutcome × Nat
  | 0, _ => (.iterationCapReached "Agent stopped due to iteration limit.", 0)
  | fuel + 1, pad =>
    match oracle pad with
    | .finalAnswer t => (.answer t, 1)
    | .action toolName toolInput =>
      match tools.find? (fun t => t.descr.name = toolName) with
      | none => (.unknownToolError toolName, 1)
      | some t =>
        let rest := reasoningLoop oracle tools tolerance fuel (pad ++ [t.run toolInput])
        (rest.1, rest.2 + 1)
    | .unparsable raw =>
      if tolerance then
        let rest := reasoningLoop oracle tools tolerance fuel
          (pad ++ ["Invalid or incomplete response; use the required format."])
        (rest.1, rest.2 + 1)
      else (.parseError raw, 1)

/-- Modelled from the spec: agent_executor.invoke runs the reasoning
loop with the executor's configuration — the scratchpad starts empty
and the budget is max_iterations. -/
def invokeExecutor (a : AgentExecutor) (oracle : List String → ModelStep)
    (tools : List ToolImpl) : LoopOutcome × Nat :=
  reasoningLoop oracle tools a.handleParsingErrors a.maxIterations []

/-- The role pattern user, assistant, user, assistant, ... repeated n
times, against which the transcript is compared. -/
def altRoles : Nat → List String
  | 0 => []
  | n + 1 => "user" :: "assistant" :: altRoles n

/-- Lemma: a truthy chat input makes the handler append exactly the user
message followed by one assistant message holding the reply. -/
theorem chatHandler_snd_truthy (ms : List Message) (input : Option String)
    (r : InvokeResult) (h : pyTruthy input = true) :
    (chatHandler ms input r).2 =
      ms ++ [⟨"user", input.getD ""⟩, ⟨"assistant", assistantReply r⟩] := by
  cases r <;> simp [chatHandler, h, assistantReply]

/-- Lemma: roles of a session transcript, generalized over the starting
transcript: every handled nonempty submission contributes one user role
and one assistant role at the end. -/
theorem runSession_roles (a : AgentExecutor)
    (subs : List (Option String × InvokeResult)) :
    ∀ ms, (∀ s ∈ subs, pyTruthy s.1 = true) →
      ((subs.foldl sessionStep (a, ms)).2).map Message.role =
        ms.map Message.role ++ altRoles subs.length := by
  induction subs with
  | nil => intro ms _; simp [altRoles]
  | cons hd rest ih =>
    intro ms h
    have hhd : pyTruthy hd.1 = true := h hd (List.mem_cons_self _ _)
    have hrest : ∀ s ∈ rest, pyTruthy s.1 = true :=
      fun s hs => h s (List.mem_cons_of_mem _ hs)
    rw [List.foldl_cons]
    have hstep : sessionStep (a, ms) hd =
        (a, ms ++ [⟨"user", hd.1.getD ""⟩, ⟨"assistant", assistantReply hd.2⟩]) := by
      simp [sessionStep, chatHandler_snd_truthy ms hd.1 hd.2 hhd]
    rw [hstep, ih _ hrest]
    simp [altRoles]

/-- Lemma: the alternating pattern has length 2n. -/
theorem altRoles_length : ∀ n, (altRoles n).length = 2 * n := by
  intro n
  induction n with
  | zero => rfl
  | succ n ih => simp [altRoles, ih]; omega

/-- Lemma: the alternating pattern reads user at even positions and
assistant at odd positions. -/
theorem altRoles_getD : ∀ n i, i < 2 * n →
    (altRoles n).getD i "" = (if i % 2 = 0 then "user" else "assistant") := by
  intro n
  induction n with
  | zero => intro i hi; omega
  | succ n ih =>
    intro i hi
    match i with
    | 0 => simp [altRoles]
    | 1 => simp [altRoles]
    | k + 2 =>
      have hk : k < 2 * n := by omega
      have h2 : (altRoles (n + 1)).getD (k + 2) "" = (altRoles n).getD k "" := by
        simp [altRoles]
      rw [h2, ih k hk, Nat.add_mod_right k 2]

/-- C1: after any sequence of N non-empty submissions handled to
completion (whether the invoke call returned or raised), the transcript
st.session_state.messages holds exactly 2N messages whose roles strictly
alternate user, assistant, user, assistant, ... -/
theorem session_transcript_alternates (agent : AgentExecutor)
    (subs : List (Option String × InvokeResult))
    (h : ∀ s ∈ subs, pyTruthy s.1 = true) :
    (runSession agent subs).2.length = 2 * subs.length ∧
    ∀ i, i < 2 * subs.length →
      ((runSession agent subs).2.getD i default).role =
        (if i % 2 = 0 then "user" else "assistant") := by
  have hroles := runSession_roles agent subs [] h
  simp only [List.map_nil, List.nil_append] at hroles
  simp only [runSession]
  constructor
  · have hlen := congrArg List.length hroles
    simpa [altRoles_length] using hlen
  · intro i hi
    have hmap := (List.getD_map (l := (subs.foldl sessionStep (agent, [])).2)
      default (n := i) Message.role).symm
    have hd : Message.role default = "" := rfl
    rw [hmap, hroles, hd]
    exact altRoles_getD subs.length i hi

/-- Witness for C1 at a concrete two-submission session, one successful
invoke and one raising invoke. -/
theorem session_transcript_alternates_witness :
    (runSession setup_agent
        [(some "q1", .ok [("output", "a1")]), (some "q2", .raises "boom")]).2.length =
      2 * 2 ∧
    ∀ i, i < 2 * 2 →
      ((runSession setup_agent
          [(some "q1", .ok [("output", "a1")]), (some "q2", .raises "boom")]).2.getD
            i default).role =
        (if i % 2 = 0 then "user" else "assistant") :=
  session_transcript_alternates setup_agent
    [(some "q1", .ok [("output", "a1")]), (some "q2", .raises "boom")] (by decide)

/-- C2: an exception raised by agent_executor.invoke is caught at the UI
boundary: the final transcript is the prior one plus the user message
plus one assistant message; the prior messages are unchanged; among the
messages appended for this submission exactly the one error message has
the assistant role; its content embeds the exception text; and the
handler returns a value (the rerun continues). -/
theorem invoke_exception_appends_single_error (ms : List Message)
    (input : Option String) (e : String) (h : pyTruthy input = true) :
    (chatHandler ms input (.raises e)).2 =
      ms ++ [⟨"user", input.getD ""⟩,
             ⟨"assistant", "An error occurred: " ++ e ++ ". Please try again."⟩] ∧
    (chatHandler ms input (.raises e)).2.take ms.length = ms ∧
    ((chatHandler ms input (.raises e)).2.drop ms.length).filter
        (fun m => m.role == "assistant") =
      [⟨"assistant", "An error occurred: " ++ e ++ ". Please try again."⟩] ∧
    ∃ pre post,
      "An error occurred: " ++ e ++ ". Please try again." = pre ++ e ++ post := by
  have heq := chatHandler_snd_truthy ms input (.raises e) h
  refine ⟨heq, ?_, ?_, "An error occurred: ", ". Please try again.", rfl⟩
  · rw [heq, List.take_left]
  · rw [heq, List.drop_left]
    simp [assistantReply, List.filter]

/-- Witness for C2 at a concrete transcript, submission and exception. -/
theorem invoke_exception_appends_single_error_witness :
    (chatHandler [⟨"user", "p"⟩, ⟨"assistant", "a"⟩] (some "q") (.raises "boom")).2 =
      [⟨"user", "p"⟩, ⟨"assistant", "a"⟩] ++
        [⟨"user", (some "q").getD ""⟩,
         ⟨"assistant", "An error occurred: " ++ "boom" ++ ". Please try again."⟩] ∧
    (chatHandler [⟨"user", "p"⟩, ⟨"assistant", "a"⟩] (some "q")
        (.raises "boom")).2.take
          ([⟨"user", "p"⟩, ⟨"assistant", "a"⟩] : List Message).length =
      [⟨"user", "p"⟩, ⟨"assistant", "a"⟩] ∧
    ((chatHandler [⟨"user", "p"⟩, ⟨"assistant", "a"⟩] (some "q")
        (.raises "boom")).2.drop
          ([⟨"user", "p"⟩, ⟨"assistant", "a"⟩] : List Message).length).filter
        (fun m => m.role == "assistant") =
      [⟨"assistant", "An error occurred: " ++ "boom" ++ ". Please try again."⟩] ∧
    ∃ pre post,
      "An error occurred: " ++ "boom" ++ ". Please try again." =
        pre ++ "boom" ++ post :=
  invoke_exception_appends_single_error [⟨"user", "p"⟩, ⟨"assistant", "a"⟩]
    (some "q") "boom" (by decide)

/-- C3: with an empty or absent credential the rerun stops at the gate:
the agent is not constructed, the executor is never invoked (so no model
or tool call happens), no event occurs, the transcript is unchanged and
the UI stays in AwaitingCredential. -/
theorem empty_credential_stops_script (key initError : Option String)
    (prior : List Message) (chatInput : Option String) (result : InvokeResult)
    (h : pyTruthy key = false) :
    scriptRun key initError prior chatInput result =
      ⟨false, false, .awaitingCredential, [], prior⟩ := by
  simp [scriptRun, h]

/-- Witness for C3 with the empty credential string and a pending
submission that is consequently never handled. -/
theorem empty_credential_stops_script_witness :
    scriptRun (some "") none [⟨"user", "old"⟩] (some "q") (.ok [("output", "a")]) =
      ⟨false, false, .awaitingCredential, [], [⟨"user", "old"⟩]⟩ :=
  empty_credential_stops_script (some "") none [⟨"user", "old"⟩] (some "q")
    (.ok [("output", "a")]) (by decide)

/-- C4: the user message holding the submission is appended before the
invoke call: the trace contains the invoke event whose transcript
snapshot is the prior messages plus the user message, and every invoke
event in the trace carries the submission as input with that user
message as the last transcript element at the moment of the call. -/
theorem user_message_appended_before_invoke (ms : List Message)
    (input : Option String) (r : InvokeResult) (h : pyTruthy input = true) :
    (Event.invokeCall (input.getD "") (ms ++ [⟨"user", input.getD ""⟩]) ∈
        (chatHandler ms input r).1) ∧
    ∀ p msAt, Event.invokeCall p msAt ∈ (chatHandler ms input r).1 →
      p = input.getD "" ∧ msAt.getLast? = some ⟨"user", p⟩ := by
  cases r with
  | ok response =>
    constructor
    · simp [chatHandler, h]
    · intro p msAt hmem
      simp [chatHandler, h] at hmem
      obtain ⟨hp, hms⟩ := hmem
      subst hp hms
      simp
  | raises e =>
    constructor
    · simp [chatHandler, h]
    · intro p msAt hmem
      simp [chatHandler, h] at hmem
      obtain ⟨hp, hms⟩ := hmem
      subst hp hms
      simp

/-- Witness for C4 at a concrete submission with a successful invoke. -/
theorem user_message_appended_before_invoke_witness :
    (Event.invokeCall ((some "q").getD "")
        ([⟨"user", "p"⟩] ++ [⟨"user", (some "q").getD ""⟩]) ∈
      (chatHandler [⟨"user", "p"⟩] (some "q") (.ok [("output", "a")])).1) ∧
    ∀ p msAt,
      Event.invokeCall p msAt ∈
          (chatHandler [⟨"user", "p"⟩] (some "q") (.ok [("output", "a")])).1 →
        p = (some "q").getD "" ∧ msAt.getLast? = some ⟨"user", p⟩ :=
  user_message_appended_before_invoke [⟨"user", "p"⟩] (some "q")
    (.ok [("output", "a")]) (by decide)

/-- C5: the transcript is append-only: along the handler trace every
successive snapshot of st.session_state.messages extends the previous
one by a single element appended at the end (so each snapshot is a
prefix of the next), and the last snapshot is the final transcript. -/
theorem transcript_append_only (ms : List Message) (input : Option String)
    (r : InvokeResult) :
    List.Chain' (fun a b => ∃ m, b = a ++ [m])
      (msgSnapshots ms (chatHandler ms input r).1) ∧
    List.Chain' (· <+: ·) (msgSnapshots ms (chatHandler ms input r).1) ∧
    (msgSnapshots ms (chatHandler ms input r).1).getLast? =
      some (chatHandler ms input r).2 := by
  by_cases h : pyTruthy input = true
  · cases r with
    | ok response =>
      refine ⟨?_, ?_, ?_⟩ <;>
        simp [chatHandler, h, msgSnapshots, List.chain'_cons, List.prefix_append]
    | raises e =>
      refine ⟨?_, ?_, ?_⟩ <;>
        simp [chatHandler, h, msgSnapshots, List.chain'_cons, List.prefix_append]
  · have hf : pyTruthy input = false := by
      cases hb : pyTruthy input
      · rfl
      · exact absurd hb h
    simp [chatHandler, hf, msgSnapshots]

/-- Lemma: the reasoning loop never performs more rounds than its
remaining iteration budget. -/
theorem reasoningLoop_rounds_le (oracle : List String → ModelStep)
    (tools : List ToolImpl) (tol : Bool) :
    ∀ fuel pad, (reasoningLoop oracle tools tol fuel pad).2 ≤ fuel := by
  intro fuel
  induction fuel with
  | zero => intro pad; simp [reasoningLoop]
  | succ n ih =>
    intro pad
    simp only [reasoningLoop]
    cases horacle : oracle pad with
    | finalAnswer t => simp
    | action toolName toolInput =>
      cases hfind : tools.find? (fun t => t.descr.name = toolName) with
      | none => simp [hfind]
      | some t =>
        simp only [hfind]
        exact Nat.succ_le_succ (ih _)
    | unparsable raw =>
      cases tol with
      | false => simp
      | true =>
        simp only [if_pos rfl]
        exact Nat.succ_le_succ (ih _)

/-- C6: the executor built in setup_agent carries max_iterations = 5,
and for every model oracle and tool set the reasoning loop terminates
after at most that many model-query/tool-dispatch rounds. -/
theorem executor_rounds_bounded (oracle : List String → ModelStep)
    (tools : List ToolImpl) :
    (invokeExecutor setup_agent oracle tools).2 ≤ setup_agent.maxIterations ∧
    setup_agent.maxIterations = 5 :=
  ⟨reasoningLoop_rounds_le oracle tools setup_agent.handleParsingErrors
      setup_agent.maxIterations [], rfl⟩

/-- Lemma: folding the session steps never changes the agent component. -/
theorem sessionFold_fst (a : AgentExecutor)
    (subs : List (Option String × InvokeResult)) :
    ∀ ms, (subs.foldl sessionStep (a, ms)).1 = a := by
  induction subs with
  | nil => intro ms; rfl
  | cons hd rest ih =>
    intro ms
    rw [List.foldl_cons]
    exact ih _

/-- C7: the registry holds exactly the two tools, the web-search lookup
and the math helper, fixed at construction; after any sequence of
session interactions the executor still carries the same tool list. -/
theorem tool_registry_fixed_two_tools :
    setup_agent.tools.map Tool.name = ["ddg-search", "llm-math"] ∧
    setup_agent.tools.length = 2 ∧
    ∀ subs, (runSession setup_agent subs).1.tools = setup_agent.tools := by
  refine ⟨rfl, rfl, ?_⟩
  intro subs
  rw [runSession, sessionFold_fst]

/-- Lemma: once the cache is warm every rerun gets the cached instance
and no further construction happens. -/
theorem rerunTrace_cached : ∀ n, rerunTrace (some setup_agent) n =
    (List.replicate n setup_agent, 0) := by
  intro n
  induction n with
  | zero => rfl
  | succ n ih => simp [rerunTrace, cachedSetupAgent, ih, List.replicate_succ]

/-- C8: over any number of script reruns the executor is constructed at
most once, every rerun is handed the same instance setup_agent, and
handling a submission changes no field of the agent. -/
theorem agent_constructed_once_and_reused :
    (∀ n, (rerunTrace none n).2 ≤ 1) ∧
    (∀ n, ∀ a ∈ (rerunTrace none n).1, a = setup_agent) ∧
    (∀ st sub, (sessionStep st sub).1 = st.1) := by
  have hcold : ∀ n, rerunTrace none (n + 1) =
      (setup_agent :: List.replicate n setup_agent, 1) := by
    intro n
    simp [rerunTrace, cachedSetupAgent, rerunTrace_cached]
  refine ⟨?_, ?_, ?_⟩
  · intro n
    cases n with
    | zero => simp [rerunTrace]
    | succ n => rw [hcold]
  · intro n a ha
    cases n with
    | zero => simp [rerunTrace] at ha
    | succ n =>
      rw [hcold] at ha
      rcases List.mem_cons.mp ha with h | h
      · exact h
      · exact List.eq_of_mem_replicate h
  · intro st sub
    rfl

/-- C9: on a returned response dictionary the appended assistant message
is exactly the value under the key "output" when that key is present,
and exactly the fallback string when it is absent. -/
theorem missing_output_key_fallback (ms : List Message) (input : Option String)
    (response : List (String × String)) (h : pyTruthy input = true) :
    (response.lookup "output" = none →
      (chatHandler ms input (.ok response)).2.getLast? =
        some ⟨"assistant", "Sorry, I encountered an error."⟩) ∧
    (∀ v, response.lookup "output" = some v →
      (chatHandler ms input (.ok response)).2.getLast? =
        some ⟨"assistant", v⟩) := by
  have heq := chatHandler_snd_truthy ms input (.ok response) h
  constructor
  · intro hnone
    rw [heq]
    simp [assistantReply, dictGet, hnone]
  · intro v hv
    rw [heq]
    simp [assistantReply, dictGet, hv]

/-- Witness for C9 at a concrete response carrying the "output" key and
applying the theorem at a concrete transcript and submission. -/
theorem missing_output_key_fallback_witness :
    (([("output", "42")] : List (String × String)).lookup "output" = none →
      (chatHandler [] (some "q") (.ok [("output", "42")])).2.getLast? =
        some ⟨"assistant", "Sorry, I encountered an error."⟩) ∧
    (∀ v, ([("output", "42")] : List (String × String)).lookup "output" = some v →
      (chatHandler [] (some "q") (.ok [("output", "42")])).2.getLast? =
        some ⟨"assistant", v⟩) :=
  missing_output_key_fallback [] (some "q") [("output", "42")] (by decide)

/-- C10: a falsy chat-input value (no submission, or the empty string)
skips the handler body entirely: no event happens and the transcript is
returned unchanged. -/
theorem falsy_chat_input_no_effect (ms : List Message) (input : Option String)
    (r : InvokeResult) (h : pyTruthy input = false) :
    chatHandler ms input r = ([], ms) := by
  simp [chatHandler, h]

/-- Witness for C10 at the empty-string chat input. -/
theorem falsy_chat_input_no_effect_witness :
    chatHandler [⟨"user", "p"⟩] (some "") (.ok [("output", "a")]) =
      ([], [⟨"user", "p"⟩]) :=
  falsy_chat_input_no_effect [⟨"user", "p"⟩] (some "") (.ok [("output", "a")])
    (by decide)
